import Mathlib

/-!
Shallow embedding of the LinkShortener core: the link store schema
(src/db/schema.ts), the data-access layer (src/data/links.ts), the three
server actions createLink / editLink / deleteLink
(src/app/dashboard/actions.ts) and the public redirect endpoint (the
route handler calling getLinkByShortCode).

Storage is modelled as a list of rows together with an injectable fault
schedule: each database call consumes the head of the schedule and, when
it is some fault, raises it (modelling a rejected promise from the
storage driver).  The insert additionally raises a uniqueness-constraint
fault when the short code is already present, mirroring the
uniqueIndex on short_code in src/db/schema.ts; an injected uniqueness
fault at the insert models the concurrent race in which another insert
won after the pre-check.  A raised fault that no try/catch intercepts
surfaces as Except.error: that is the unhandled rejection the caller of
the server action would observe.
-/

/-- A row of the links table (src/db/schema.ts): id (primary key),
user_id, short_code (unique index), url, created_at, updated_at.
Timestamps are modelled as naturals. -/
structure Link where
  id : String
  userId : String
  shortCode : String
  url : String
  createdAt : Nat
  updatedAt : Nat
deriving DecidableEq, Repr

/-- A fault raised by the storage layer: either an arbitrary driver
fault, or the rejection of a write by the unique index on short_code. -/
inductive Fault where
  | storage
  | unique
deriving DecidableEq, Repr

/-- The world a request runs against: the stored rows, the schedule of
faults the storage layer will raise (one entry consumed per database
call; none / an exhausted list means the call succeeds), the successive
base-36 digit expansions Math.random produces, the uuids
crypto.randomUUID produces, and the current time. -/
structure World where
  store : List Link
  faults : List (Option Fault)
  draws : List (List (Fin 36))
  uuids : List String
  now : Nat
deriving DecidableEq, Repr

def popFault (w : World) : Option Fault × World :=
  (w.faults.headD none, { w with faults := w.faults.tail })

def popDraw (w : World) : List (Fin 36) × World :=
  (w.draws.headD [], { w with draws := w.draws.tail })

def popUuid (w : World) : String × World :=
  (w.uuids.headD "", { w with uuids := w.uuids.tail })

/-- Pure content of the isShortCodeTaken query (src/data/links.ts):
does any row carry this short code. -/
def isShortCodeTakenIn (store : List Link) (shortCode : String) : Bool :=
  store.any fun l => l.shortCode == shortCode

/-- isShortCodeTaken (src/data/links.ts): select a row by short code,
limit 1, return whether one exists. -/
def isShortCodeTaken (shortCode : String) (w : World) :
    Except Fault Bool × World :=
  match popFault w with
  | (some e, w₁) => (.error e, w₁)
  | (none, w₁) => (.ok (isShortCodeTakenIn w₁.store shortCode), w₁)

/-- getLinkById (src/data/links.ts): select by id, limit 1. -/
def getLinkById (id : String) (w : World) :
    Except Fault (Option Link) × World :=
  match popFault w with
  | (some e, w₁) => (.error e, w₁)
  | (none, w₁) => (.ok (w₁.store.find? fun l => l.id == id), w₁)

/-- isShortCodeTakenExcluding (src/data/links.ts): a row with this
short code whose id differs from excludeId. -/
def isShortCodeTakenExcluding (shortCode excludeId : String) (w : World) :
    Except Fault Bool × World :=
  match popFault w with
  | (some e, w₁) => (.error e, w₁)
  | (none, w₁) =>
    (.ok (w₁.store.any fun l => l.shortCode == shortCode && !(l.id == excludeId)), w₁)

/-- insertLink (src/data/links.ts): insert a fresh row with a random
uuid and defaultNow timestamps.  The unique index on short_code rejects
the insert when the code is already stored (Fault.unique). -/
def insertLink (userId url shortCode : String) (w : World) :
    Except Fault Link × World :=
  match popFault w with
  | (some e, w₁) => (.error e, w₁)
  | (none, w₁) =>
    if isShortCodeTakenIn w₁.store shortCode then (.error Fault.unique, w₁)
    else
      match popUuid w₁ with
      | (uuid, w₂) =>
        let link : Link :=
          { id := uuid, userId := userId, shortCode := shortCode, url := url,
            createdAt := w₂.now, updatedAt := w₂.now }
        (.ok link, { w₂ with store := w₂.store ++ [link] })

/-- updateLinkById (src/data/links.ts): set url, shortCode and a fresh
updatedAt on the row with this id, returning the updated row.  The
unique index rejects the update when another row already carries the
code. -/
def updateLinkById (id url shortCode : String) (w : World) :
    Except Fault (Option Link) × World :=
  match popFault w with
  | (some e, w₁) => (.error e, w₁)
  | (none, w₁) =>
    if w₁.store.any (fun l => l.shortCode == shortCode && !(l.id == id)) then
      (.error Fault.unique, w₁)
    else
      let updated := w₁.store.map fun l =>
        if l.id == id then
          { l with url := url, shortCode := shortCode, updatedAt := w₁.now }
        else l
      (.ok ((updated.filter fun l => l.id == id).head?),
        { w₁ with store := updated })

/-- deleteLinkById (src/data/links.ts): delete the row with this id. -/
def deleteLinkById (id : String) (w : World) :
    Except Fault Unit × World :=
  match popFault w with
  | (some e, w₁) => (.error e, w₁)
  | (none, w₁) => (.ok (), { w₁ with store := w₁.store.filter fun l => !(l.id == id) })

/-- getLinkByShortCode (src/data/links.ts): select by short code,
limit 1. -/
def getLinkByShortCode (store : List Link) (shortCode : String) : Option Link :=
  store.find? fun l => l.shortCode == shortCode

/-- Modelled from the spec: the destination must parse as an absolute
URL (the source delegates this to the third-party zod string().url()
validator, which is not part of the repository). -/
def isValidUrl (s : String) : Bool :=
  "http://".data.isPrefixOf s.data || "https://".data.isPrefixOf s.data

/-- One character of the slug character class [a-zA-Z0-9_-]. -/
def slugCharOk (c : Char) : Bool :=
  c.isAlphanum || c == '-' || c == '_'

/-- The regex [a-zA-Z0-9_-]* of createLinkSchema. -/
def slugChars (s : String) : Bool :=
  s.data.all slugCharOk

/-- The per-field error lists produced by zod safeParse followed by
error.format(): one list of messages for url, one for slug. -/
structure FieldErrors where
  url : List String
  slug : List String
deriving DecidableEq, Repr

/-- The error payload of a failed action: a single message or the
field-keyed validation errors. -/
inductive ActionError where
  | msg (s : String)
  | validation (e : FieldErrors)
deriving DecidableEq, Repr

inductive CreateLinkResult where
  | success (data : Link)
  | failure (error : ActionError)
deriving DecidableEq, Repr

/-- The edit result; data mirrors the runtime value of updateLinkById,
which is the first returned row and so an Option. -/
inductive EditLinkResult where
  | success (data : Option Link)
  | failure (error : ActionError)
deriving DecidableEq, Repr

inductive DeleteLinkResult where
  | success
  | failure (error : String)
deriving DecidableEq, Repr

def urlInvalidMsg : String := "Please enter a valid URL"

def slugMaxMsg : String := "Slug must be 50 characters or fewer"

def slugRegexMsg : String := "Slug may only contain letters, numbers, hyphens, and underscores"

def slugRequiredMsg : String := "Short code is required"

def unauthorizedMsg : String := "Unauthorized"

def exhaustedMsg : String := "Failed to generate a unique short code. Please try again."

def slugTakenMsg : String := "That slug is already taken. Please choose a different one."

def createFailedMsg : String := "Failed to create link. Please try again."

def notFoundMsg : String := "Link not found."

def updateFailedMsg : String := "Failed to update link. Please try again."

def deleteFailedMsg : String := "Failed to delete link. Please try again."

/-- createLinkSchema.safeParse (src/app/dashboard/actions.ts): url must
be a valid URL; the optional slug must be at most 50 characters and
match [a-zA-Z0-9_-]*; after validation the transform maps the empty
slug to an absent one. -/
def parseCreate (url : String) (slug : Option String) :
    Sum FieldErrors (String × Option String) :=
  let urlErrs := if isValidUrl url then [] else [urlInvalidMsg]
  let slugErrs :=
    match slug with
    | none => []
    | some s =>
      (if s.length ≤ 50 then [] else [slugMaxMsg]) ++
      (if slugChars s then [] else [slugRegexMsg])
  if urlErrs.isEmpty && slugErrs.isEmpty then
    .inr (url,
      match slug with
      | none => none
      | some s => if s == "" then none else some s)
  else .inl { url := urlErrs, slug := slugErrs }

/-- editLinkSchema.safeParse (src/app/dashboard/actions.ts): url must be
a valid URL; the slug must be nonempty (min 1), at most 50 characters
and match [a-zA-Z0-9_-]+. -/
def parseEdit (url slug : String) : Sum FieldErrors (String × String) :=
  let urlErrs := if isValidUrl url then [] else [urlInvalidMsg]
  let slugErrs :=
    (if 1 ≤ slug.length then [] else [slugRequiredMsg]) ++
    (if slug.length ≤ 50 then [] else [slugMaxMsg]) ++
    (if 1 ≤ slug.length && slugChars slug then [] else [slugRegexMsg])
  if urlErrs.isEmpty && slugErrs.isEmpty then .inr (url, slug)
  else .inl { url := urlErrs, slug := slugErrs }

/-- The base-36 digit alphabet of Number.prototype.toString(36):
0-9 then a-z. -/
def digitChar (d : Fin 36) : Char :=
  if d.val < 10 then Char.ofNat (48 + d.val) else Char.ofNat (87 + d.val)

/-- generateShortCode (src/app/dashboard/actions.ts):
Math.random().toString(36).substring(2, 8).  A random double in [0,1)
prints in base 36 as the two characters 0. followed by the base-36
digit expansion of its fractional part (a dyadic rational, so the
expansion terminates and may hold fewer than 6 digits, e.g. 0.5 prints
as 0.i); substring(2, 8) drops the 0. prefix and keeps at most the
first 6 digits.  The digits argument is that expansion, drawn from the
world. -/
def generateShortCode (digits : List (Fin 36)) : String :=
  String.mk ((digits.take 6).map digitChar)

/-- Input of createLink.  The dialog always sends a string slug, but the
zod schema also accepts an absent one and maps the empty string to it;
the slug field carries that option-valued domain. -/
structure CreateLinkInput where
  url : String
  slug : Option String
deriving DecidableEq, Repr

structure EditLinkInput where
  id : String
  url : String
  slug : String
deriving DecidableEq, Repr

structure DeleteLinkInput where
  id : String
deriving DecidableEq, Repr

/-- The do/while generation loop of createLink: draw a code, count the
attempt, give up past 10 attempts, otherwise loop while the code is
taken.  remaining = 10 on entry, so remaining = 0 corresponds to
attempts = 11 > 10, where the loop aborts after drawing (the 11th draw
is taken but never checked).  Returns none on exhaustion, the free code
otherwise. -/
def genLoop (remaining : Nat) (w : World) :
    Except Fault (Option String × World) :=
  match popDraw w with
  | (digits, w₁) =>
    let shortCode := generateShortCode digits
    match remaining with
    | 0 => .ok (none, w₁)
    | r + 1 =>
      match isShortCodeTaken shortCode w₁ with
      | (.error f, _) => .error f
      | (.ok true, w₂) => genLoop r w₂
      | (.ok false, w₂) => .ok (some shortCode, w₂)

/-- The try/catch around insertLink in createLink: any raised fault is
caught and converted into the generic create-failure message. -/
def createInsertPhase (userId url shortCode : String) (w : World) :
    Except Fault (CreateLinkResult × World) :=
  match insertLink userId url shortCode w with
  | (.ok link, w₁) => .ok (.success link, w₁)
  | (.error _, w₁) => .ok (.failure (.msg createFailedMsg), w₁)

/-- createLink (src/app/dashboard/actions.ts): authenticate, validate,
then either use the requested slug (after an uncaught uniqueness
pre-check) or generate one, and insert inside try/catch. -/
def createLink (auth : Option String) (input : CreateLinkInput) (w : World) :
    Except Fault (CreateLinkResult × World) :=
  match auth with
  | none => .ok (.failure (.msg unauthorizedMsg), w)
  | some userId =>
    match parseCreate input.url input.slug with
    | .inl e => .ok (.failure (.validation e), w)
    | .inr (url, slug) =>
      match slug with
      | none =>
        match genLoop 10 w with
        | .error f => .error f
        | .ok (none, w₁) => .ok (.failure (.msg exhaustedMsg), w₁)
        | .ok (some shortCode, w₁) => createInsertPhase userId url shortCode w₁
      | some shortCode =>
        match isShortCodeTaken shortCode w with
        | (.error f, _) => .error f
        | (.ok true, w₁) => .ok (.failure (.msg slugTakenMsg), w₁)
        | (.ok false, w₁) => createInsertPhase userId url shortCode w₁

/-- The try/catch around updateLinkById in editLink. -/
def updatePhase (id url slug : String) (w : World) :
    Except Fault (EditLinkResult × World) :=
  match updateLinkById id url slug w with
  | (.ok link, w₁) => .ok (.success link, w₁)
  | (.error _, w₁) => .ok (.failure (.msg updateFailedMsg), w₁)

/-- editLink (src/app/dashboard/actions.ts): authenticate, validate,
load by id (uncaught), collapse absent and not-owned into the same
not-found failure, check uniqueness excluding the own id only when the
slug changed (uncaught), then update inside try/catch. -/
def editLink (auth : Option String) (input : EditLinkInput) (w : World) :
    Except Fault (EditLinkResult × World) :=
  match auth with
  | none => .ok (.failure (.msg unauthorizedMsg), w)
  | some userId =>
    match parseEdit input.url input.slug with
    | .inl e => .ok (.failure (.validation e), w)
    | .inr (url, slug) =>
      match getLinkById input.id w with
      | (.error f, _) => .error f
      | (.ok none, w₁) => .ok (.failure (.msg notFoundMsg), w₁)
      | (.ok (some existing), w₁) =>
        if existing.userId == userId then
          if slug == existing.shortCode then updatePhase input.id url slug w₁
          else
            match isShortCodeTakenExcluding slug input.id w₁ with
            | (.error f, _) => .error f
            | (.ok true, w₂) => .ok (.failure (.msg slugTakenMsg), w₂)
            | (.ok false, w₂) => updatePhase input.id url slug w₂
        else .ok (.failure (.msg notFoundMsg), w₁)

/-- deleteLink (src/app/dashboard/actions.ts): authenticate, load by id
(uncaught), collapse absent and not-owned into the same not-found
failure, then delete inside try/catch. -/
def deleteLink (auth : Option String) (input : DeleteLinkInput) (w : World) :
    Except Fault (DeleteLinkResult × World) :=
  match auth with
  | none => .ok (.failure unauthorizedMsg, w)
  | some userId =>
    match getLinkById input.id w with
    | (.error f, _) => .error f
    | (.ok none, w₁) => .ok (.failure notFoundMsg, w₁)
    | (.ok (some existing), w₁) =>
      if existing.userId == userId then
        match deleteLinkById input.id w₁ with
        | (.ok _, w₂) => .ok (.success, w₂)
        | (.error _, w₂) => .ok (.failure deleteFailedMsg, w₂)
      else .ok (.failure notFoundMsg, w₁)

/-- Where a redirect response points: an absolute URL, or an
application path with query parameters (new URL relative to the request
origin plus searchParams.set). -/
inductive RedirectTarget where
  | absolute (url : String)
  | appPath (path : String) (query : List (String × String))
deriving DecidableEq, Repr

structure RedirectResponse where
  status : Nat
  target : RedirectTarget
deriving DecidableEq, Repr

/-- The GET route handler of the public redirect endpoint: look the
short code up; on a miss redirect 302 to /link-not-found carrying the
code as the query parameter, on a hit redirect 302 to the stored
url. -/
def GET (store : List Link) (shortcode : String) : RedirectResponse :=
  match getLinkByShortCode store shortcode with
  | none =>
    { status := 302,
      target := .appPath "/link-not-found" [("code", shortcode)] }
  | some link => { status := 302, target := .absolute link.url }

/-! Demo rows and worlds used by witnesses and counterexamples. -/

def aliceLink : Link :=
  { id := "id1", userId := "alice", shortCode := "abc",
    url := "https://example.com/a", createdAt := 0, updatedAt := 0 }

def bobLink : Link :=
  { id := "id2", userId := "bob", shortCode := "mine",
    url := "https://example.com/b", createdAt := 1, updatedAt := 1 }

def demoWorld : World :=
  { store := [aliceLink, bobLink], faults := [], draws := [],
    uuids := ["uuid-new"], now := 9 }

/-- C8: a resolve request for a stored short code is answered with a 302
redirect to that link's destination URL, and a resolve request for an
absent code with a 302 redirect to the link-not-found page carrying the
attempted code as the query parameter. -/
theorem GET_redirects (store : List Link) (code : String) :
    (∀ l, getLinkByShortCode store code = some l →
      GET store code = { status := 302, target := .absolute l.url }) ∧
    (getLinkByShortCode store code = none →
      GET store code =
        { status := 302,
          target := .appPath "/link-not-found" [("code", code)] }) := by
  constructor
  · intro l h
    simp [GET, h]
  · intro h
    simp [GET, h]

theorem GET_redirects_witness :
    GET [aliceLink, bobLink] "abc" =
      { status := 302, target := .absolute "https://example.com/a" } ∧
    GET [aliceLink, bobLink] "zzz" =
      { status := 302,
        target := .appPath "/link-not-found" [("code", "zzz")] } :=
  ⟨(GET_redirects [aliceLink, bobLink] "abc").1 aliceLink (by decide),
   (GET_redirects [aliceLink, bobLink] "zzz").2 (by decide)⟩

/-- createLink reads its input only through createLinkSchema.safeParse,
so inputs with the same parse outcome behave identically. -/
lemma createLink_parse_congr (auth : Option String) (i j : CreateLinkInput)
    (w : World) (h : parseCreate i.url i.slug = parseCreate j.url j.slug) :
    createLink auth i w = createLink auth j w := by
  cases auth with
  | none => rfl
  | some uid =>
    unfold createLink
    rw [h]

/-- C10: an empty slug input passes validation (the star regex and the
max-50 rule accept the empty string) and the transform maps it to an
absent slug, so createLink behaves on the empty slug exactly as on an
absent one and takes the random-generation path. -/
theorem createLink_emptySlug_absent (url : String) (auth : Option String) (w : World) :
    parseCreate url (some "") = parseCreate url none ∧
    (isValidUrl url = true → parseCreate url (some "") = .inr (url, none)) ∧
    createLink auth { url := url, slug := some "" } w =
      createLink auth { url := url, slug := none } w := by
  have h0 : slugChars "" = true := by decide
  have hp : parseCreate url (some "") = parseCreate url none := by
    simp [parseCreate, h0]
  refine ⟨hp, fun hu => ?_, ?_⟩
  · rw [hp]
    simp [parseCreate, hu]
  · exact createLink_parse_congr auth _ _ w hp

theorem createLink_emptySlug_absent_witness :
    parseCreate "https://example.com/a" (some "") = .inr ("https://example.com/a", none) ∧
    createLink (some "user") { url := "https://example.com/a", slug := some "" } demoWorld =
      createLink (some "user") { url := "https://example.com/a", slug := none } demoWorld :=
  ⟨(createLink_emptySlug_absent "https://example.com/a" (some "user") demoWorld).2.1 (by decide),
   (createLink_emptySlug_absent "https://example.com/a" (some "user") demoWorld).2.2⟩

/-- C5: an authenticated create with a valid URL and a requested code of
the allowed shape that is not yet stored succeeds with exactly that
code, appending the new record to the store. -/
theorem createLink_requested_exact (uid url code : String) (w : World)
    (hf : w.faults = []) (hu : isValidUrl url = true) (hne : code ≠ "")
    (hlen : code.length ≤ 50) (hchars : slugChars code = true)
    (hfree : isShortCodeTakenIn w.store code = false) :
    ∃ link w',
      createLink (some uid) { url := url, slug := some code } w =
        .ok (.success link, w') ∧
      link.shortCode = code ∧ link.userId = uid ∧ link.url = url ∧
      w'.store = w.store ++ [link] := by
  refine ⟨⟨w.uuids.headD "", uid, code, url, w.now, w.now⟩,
    ⟨w.store ++ [⟨w.uuids.headD "", uid, code, url, w.now, w.now⟩],
      [], w.draws, w.uuids.tail, w.now⟩, ?_, rfl, rfl, rfl, rfl⟩
  simp [createLink, parseCreate, isShortCodeTaken, popFault, popUuid,
    createInsertPhase, insertLink, hf, hu, hne, hlen, hchars, hfree]

theorem createLink_requested_exact_witness :
    ∃ link w',
      createLink (some "carol") { url := "https://example.com/c", slug := some "my-link" } demoWorld =
        .ok (.success link, w') ∧
      link.shortCode = "my-link" ∧ link.userId = "carol" ∧
      link.url = "https://example.com/c" ∧
      w'.store = demoWorld.store ++ [link] :=
  createLink_requested_exact "carol" "https://example.com/c" "my-link" demoWorld
    rfl (by decide) (by decide) (by decide) (by decide) (by decide)

/-- The run returned through the success arm of the discriminated edit
result. -/
def isEditSuccess (r : Except Fault (EditLinkResult × World)) : Prop :=
  match r with
  | .ok (.success _, _) => True
  | _ => False

/-- C6: a create requesting an already-stored code fails with the
slug-taken message and leaves the store unchanged; an edit moving a
different record onto a stored code fails the same way and changes
nothing; an edit keeping the record's own code skips the collision
check and succeeds (the exclusion of the own id). -/
theorem collision_checks :
    (∀ (uid url code : String) (w : World), w.faults = [] →
      isValidUrl url = true → code ≠ "" → code.length ≤ 50 →
      slugChars code = true → isShortCodeTakenIn w.store code = true →
      ∃ w', createLink (some uid) { url := url, slug := some code } w =
          .ok (.failure (.msg slugTakenMsg), w') ∧ w'.store = w.store) ∧
    (∀ (uid : String) (input : EditLinkInput) (w : World) (existing : Link),
      w.faults = [] → isValidUrl input.url = true → 1 ≤ input.slug.length →
      input.slug.length ≤ 50 → slugChars input.slug = true →
      (w.store.find? fun l => l.id == input.id) = some existing →
      existing.userId = uid → input.slug ≠ existing.shortCode →
      (∃ l ∈ w.store, l.shortCode = input.slug ∧ l.id ≠ input.id) →
      ∃ w', editLink (some uid) input w =
          .ok (.failure (.msg slugTakenMsg), w') ∧ w'.store = w.store) ∧
    (∀ (uid : String) (input : EditLinkInput) (w : World) (existing : Link),
      w.faults = [] → isValidUrl input.url = true → 1 ≤ input.slug.length →
      input.slug.length ≤ 50 → slugChars input.slug = true →
      (w.store.find? fun l => l.id == input.id) = some existing →
      existing.userId = uid → input.slug = existing.shortCode →
      (∀ l ∈ w.store, l.shortCode = input.slug → l.id = input.id) →
      isEditSuccess (editLink (some uid) input w)) := by
  refine ⟨?_, ?_, ?_⟩
  · intro uid url code w hf hu hne hlen hchars htaken
    refine ⟨⟨w.store, [], w.draws, w.uuids, w.now⟩, ?_, rfl⟩
    simp [createLink, parseCreate, isShortCodeTaken, popFault,
      hf, hu, hne, hlen, hchars, htaken]
  · intro uid input w existing hf hu h1 h50 hchars hfind hown hne hex
    have hany : (w.store.any fun l => l.shortCode == input.slug && !(l.id == input.id)) = true := by
      rcases hex with ⟨l, hmem, hcode, hid⟩
      simp only [List.any_eq_true]
      exact ⟨l, hmem, by simp [hcode, hid]⟩
    refine ⟨⟨w.store, [], w.draws, w.uuids, w.now⟩, ?_, rfl⟩
    simp [editLink, parseEdit, getLinkById, isShortCodeTakenExcluding, popFault,
      hf, hu, h1, h50, hchars, hfind, hown, hne, hany]
  · intro uid input w existing hf hu h1 h50 hchars hfind hown heq huniq
    rw [heq] at h1 h50 hchars
    have hlen0 : ¬ existing.shortCode.length = 0 := by omega
    have hnone : ¬ ∃ x ∈ w.store, x.shortCode = existing.shortCode ∧ ¬ x.id = input.id := by
      rintro ⟨x, hmem, hcode, hner⟩
      exact hner (huniq x hmem (hcode.trans heq.symm))
    simp [isEditSuccess, editLink, parseEdit, getLinkById, updatePhase,
      updateLinkById, popFault, hf, hu, h1, h50, hchars, hlen0, hfind, hown, heq, hnone]

theorem collision_checks_witness :
    (∃ w', createLink (some "carol") { url := "https://example.com/c", slug := some "abc" } demoWorld =
        .ok (.failure (.msg slugTakenMsg), w') ∧ w'.store = demoWorld.store) ∧
    (∃ w', editLink (some "bob") { id := "id2", url := "https://example.com/n", slug := "abc" } demoWorld =
        .ok (.failure (.msg slugTakenMsg), w') ∧ w'.store = demoWorld.store) ∧
    isEditSuccess (editLink (some "bob")
      { id := "id2", url := "https://example.com/n", slug := "mine" } demoWorld) :=
  ⟨collision_checks.1 "carol" "https://example.com/c" "abc" demoWorld
      rfl (by decide) (by decide) (by decide) (by decide) (by decide),
   collision_checks.2.1 "bob" ⟨"id2", "https://example.com/n", "abc"⟩ demoWorld bobLink
      rfl (by decide) (by decide) (by decide) (by decide) (by decide) rfl (by decide)
      ⟨aliceLink, by decide, by decide, by decide⟩,
   collision_checks.2.2 "bob" ⟨"id2", "https://example.com/n", "mine"⟩ demoWorld bobLink
      rfl (by decide) (by decide) (by decide) (by decide) (by decide) rfl rfl (by decide)⟩

/-- C7: for an authenticated caller, edit and delete fail with the very
same not-found failure value both when the id is absent and when the
record belongs to a different user, leaving the store unchanged, so the
two cases are indistinguishable to the caller. -/
theorem notFound_collapse :
    (∀ (uid : String) (input : EditLinkInput) (w : World), w.faults = [] →
      isValidUrl input.url = true → 1 ≤ input.slug.length →
      input.slug.length ≤ 50 → slugChars input.slug = true →
      (w.store.find? fun l => l.id == input.id) = none →
      ∃ w', editLink (some uid) input w =
          .ok (.failure (.msg notFoundMsg), w') ∧ w'.store = w.store) ∧
    (∀ (uid : String) (input : EditLinkInput) (w : World) (existing : Link),
      w.faults = [] → isValidUrl input.url = true → 1 ≤ input.slug.length →
      input.slug.length ≤ 50 → slugChars input.slug = true →
      (w.store.find? fun l => l.id == input.id) = some existing →
      existing.userId ≠ uid →
      ∃ w', editLink (some uid) input w =
          .ok (.failure (.msg notFoundMsg), w') ∧ w'.store = w.store) ∧
    (∀ (uid : String) (input : DeleteLinkInput) (w : World), w.faults = [] →
      (w.store.find? fun l => l.id == input.id) = none →
      ∃ w', deleteLink (some uid) input w =
          .ok (.failure notFoundMsg, w') ∧ w'.store = w.store) ∧
    (∀ (uid : String) (input : DeleteLinkInput) (w : World) (existing : Link),
      w.faults = [] →
      (w.store.find? fun l => l.id == input.id) = some existing →
      existing.userId ≠ uid →
      ∃ w', deleteLink (some uid) input w =
          .ok (.failure notFoundMsg, w') ∧ w'.store = w.store) := by
  refine ⟨?_, ?_, ?_, ?_⟩
  · intro uid input w hf hu h1 h50 hchars hfind
    have hlen0 : ¬ input.slug.length = 0 := by omega
    refine ⟨⟨w.store, [], w.draws, w.uuids, w.now⟩, ?_, rfl⟩
    simp [editLink, parseEdit, getLinkById, popFault,
      hf, hu, h1, h50, hchars, hlen0, hfind]
  · intro uid input w existing hf hu h1 h50 hchars hfind hown
    have hlen0 : ¬ input.slug.length = 0 := by omega
    refine ⟨⟨w.store, [], w.draws, w.uuids, w.now⟩, ?_, rfl⟩
    simp [editLink, parseEdit, getLinkById, popFault,
      hf, hu, h1, h50, hchars, hlen0, hfind, hown]
  · intro uid input w hf hfind
    refine ⟨⟨w.store, [], w.draws, w.uuids, w.now⟩, ?_, rfl⟩
    simp [deleteLink, getLinkById, popFault, hf, hfind]
  · intro uid input w existing hf hfind hown
    refine ⟨⟨w.store, [], w.draws, w.uuids, w.now⟩, ?_, rfl⟩
    simp [deleteLink, getLinkById, popFault, hf, hfind, hown]

theorem notFound_collapse_witness :
    (∃ w', editLink (some "alice") { id := "ghost", url := "https://example.com/n", slug := "ok-slug" } demoWorld =
        .ok (.failure (.msg notFoundMsg), w') ∧ w'.store = demoWorld.store) ∧
    (∃ w', editLink (some "alice") { id := "id2", url := "https://example.com/n", slug := "ok-slug" } demoWorld =
        .ok (.failure (.msg notFoundMsg), w') ∧ w'.store = demoWorld.store) ∧
    (∃ w', deleteLink (some "alice") { id := "ghost" } demoWorld =
        .ok (.failure notFoundMsg, w') ∧ w'.store = demoWorld.store) ∧
    (∃ w', deleteLink (some "alice") { id := "id2" } demoWorld =
        .ok (.failure notFoundMsg, w') ∧ w'.store = demoWorld.store) :=
  ⟨notFound_collapse.1 "alice" ⟨"ghost", "https://example.com/n", "ok-slug"⟩ demoWorld
      rfl (by decide) (by decide) (by decide) (by decide) (by decide),
   notFound_collapse.2.1 "alice" ⟨"id2", "https://example.com/n", "ok-slug"⟩ demoWorld bobLink
      rfl (by decide) (by decide) (by decide) (by decide) (by decide) (by decide),
   notFound_collapse.2.2.1 "alice" ⟨"ghost"⟩ demoWorld rfl (by decide),
   notFound_collapse.2.2.2 "alice" ⟨"id2"⟩ demoWorld bobLink rfl (by decide) (by decide)⟩

/-- A successful pass through the update try/catch rewrites the store
by the per-row update function and nothing else. -/
lemma updatePhase_frame (id url slug : String) (v : World) (d : Option Link)
    (w' : World) (h : updatePhase id url slug v = .ok (.success d, w')) :
    w'.store = v.store.map fun l =>
      if l.id == id then { l with url := url, shortCode := slug, updatedAt := v.now }
      else l := by
  unfold updatePhase at h
  cases hu : updateLinkById id url slug v with
  | mk r v₂ =>
    rw [hu] at h
    cases r with
    | error e => simp at h
    | ok link =>
      simp only [Except.ok.injEq, EditLinkResult.success.injEq, Prod.mk.injEq] at h
      unfold updateLinkById popFault at hu
      split at hu
      · simp at hu
      · split at hu
        · simp at hu
        · simp only [Prod.mk.injEq, Except.ok.injEq] at hu
          rename_i x w₁ hpair hneg
          have hw : w₁ = ⟨v.store, v.faults.tail, v.draws, v.uuids, v.now⟩ :=
            (congrArg Prod.snd hpair).symm
          subst hw
          rw [← h.2, ← hu.2]

/-- Lift of updatePhase_frame to a caller world whose store and clock
the threading has preserved. -/
lemma updatePhase_frame_abs (id url slug : String) (v w : World) (d : Option Link)
    (w' : World) (hs : v.store = w.store) (hn : v.now = w.now)
    (h : updatePhase id url slug v = .ok (.success d, w')) :
    ∃ f : Link → Link, w'.store = w.store.map f ∧
      ∀ l : Link, (f l).id = l.id ∧ (f l).userId = l.userId ∧
        (f l).createdAt = l.createdAt ∧
        (l.id = id → (f l).updatedAt = w.now) ∧
        (l.id ≠ id → f l = l) := by
  refine ⟨fun l => if l.id == id then
      { l with url := url, shortCode := slug, updatedAt := w.now } else l, ?_, ?_⟩
  · have hfr := updatePhase_frame id url slug v d w' h
    simp only [hs, hn] at hfr
    exact hfr
  · intro l
    by_cases hc : l.id = id
    · simp [hc]
    · simp [hc]

/-- A read through getLinkById that did not fault leaves store and
clock unchanged. -/
lemma getLinkById_ok_world (id : String) (w w₁ : World) (r : Option Link)
    (h : getLinkById id w = (.ok r, w₁)) :
    w₁.store = w.store ∧ w₁.now = w.now := by
  unfold getLinkById popFault at h
  split at h
  · simp at h
  · rename_i y wmid hpop
    have e1 : wmid = ⟨w.store, w.faults.tail, w.draws, w.uuids, w.now⟩ :=
      (congrArg Prod.snd hpop).symm
    have e2 : w₁ = wmid := (congrArg Prod.snd h).symm
    rw [e2, e1]
    exact ⟨rfl, rfl⟩

/-- A read through isShortCodeTakenExcluding that did not fault leaves
store and clock unchanged. -/
lemma isShortCodeTakenExcluding_ok_world (code excl : String) (w w₁ : World)
    (b : Bool) (h : isShortCodeTakenExcluding code excl w = (.ok b, w₁)) :
    w₁.store = w.store ∧ w₁.now = w.now := by
  unfold isShortCodeTakenExcluding popFault at h
  split at h
  · simp at h
  · rename_i y wmid hpop
    have e1 : wmid = ⟨w.store, w.faults.tail, w.draws, w.uuids, w.now⟩ :=
      (congrArg Prod.snd hpop).symm
    have e2 : w₁ = wmid := (congrArg Prod.snd h).symm
    rw [e2, e1]
    exact ⟨rfl, rfl⟩

/-- C9: a successful edit rewrites the store row-wise: the row with the
edited id keeps its id, owner and creation time and gets the mutation
time as updatedAt (only url, shortCode, updatedAt may change), and every
other row is untouched. -/
theorem editLink_frame (uid : String) (input : EditLinkInput) (w : World)
    (d : Option Link) (w' : World)
    (h : editLink (some uid) input w = .ok (.success d, w')) :
    ∃ f : Link → Link, w'.store = w.store.map f ∧
      ∀ l : Link, (f l).id = l.id ∧ (f l).userId = l.userId ∧
        (f l).createdAt = l.createdAt ∧
        (l.id = input.id → (f l).updatedAt = w.now) ∧
        (l.id ≠ input.id → f l = l) := by
  simp only [editLink] at h
  split at h
  · simp at h
  · rename_i sx url slug hparse
    split at h
    · simp at h
    · simp at h
    · rename_i gx existing w₁ hget
      obtain ⟨hs1, hn1⟩ := getLinkById_ok_world input.id w w₁ (some existing) hget
      split at h
      · split at h
        · exact updatePhase_frame_abs input.id url slug w₁ w d w' hs1 hn1 h
        · split at h
          · simp at h
          · simp at h
          · rename_i ex w₂ hexcl
            obtain ⟨hs2, hn2⟩ :=
              isShortCodeTakenExcluding_ok_world slug input.id w₁ w₂ false hexcl
            exact updatePhase_frame_abs input.id url slug w₂ w d w'
              (hs2.trans hs1) (hn2.trans hn1) h
      · simp at h

def editedAlice : Link :=
  { id := "id1", userId := "alice", shortCode := "abc2",
    url := "https://example.com/new", createdAt := 0, updatedAt := 9 }

def editedWorld : World :=
  { store := [editedAlice, bobLink], faults := [], draws := [],
    uuids := ["uuid-new"], now := 9 }

theorem editLink_frame_witness :
    ∃ f : Link → Link, editedWorld.store = demoWorld.store.map f ∧
      ∀ l : Link, (f l).id = l.id ∧ (f l).userId = l.userId ∧
        (f l).createdAt = l.createdAt ∧
        (l.id = "id1" → (f l).updatedAt = demoWorld.now) ∧
        (l.id ≠ "id1" → f l = l) :=
  editLink_frame "alice" ⟨"id1", "https://example.com/new", "abc2"⟩ demoWorld
    (some editedAlice) editedWorld rfl

/-- One unfolding step of the generation loop. -/
lemma genLoop_succ (n : Nat) (w : World) :
    genLoop (n + 1) w =
      (match isShortCodeTaken (generateShortCode (w.draws.headD []))
          { w with draws := w.draws.tail } with
      | (.error f, _) => .error f
      | (.ok true, w₂) => genLoop n w₂
      | (.ok false, w₂) =>
        .ok (some (generateShortCode (w.draws.headD [])), w₂)) := rfl

/-- With an empty fault schedule the generation loop on a store where
the first r scheduled draws are all taken returns the exhaustion
outcome with the store untouched. -/
lemma genLoop_exhausts (r : Nat) : ∀ (w : World), w.faults = [] →
    (∀ i, i < r →
      isShortCodeTakenIn w.store (generateShortCode (w.draws.getD i [])) = true) →
    ∃ w', genLoop r w = .ok (none, w') ∧ w'.store = w.store := by
  induction r with
  | zero =>
    intro w hf ht
    exact ⟨⟨w.store, w.faults, w.draws.tail, w.uuids, w.now⟩, rfl, rfl⟩
  | succ n ih =>
    intro w hf ht
    have hgd : w.draws.getD 0 [] = w.draws.headD [] := by
      cases w.draws <;> rfl
    have h0 : isShortCodeTakenIn w.store (generateShortCode (w.draws.headD [])) = true := by
      have := ht 0 (Nat.succ_pos n)
      rwa [hgd] at this
    have hstep : genLoop (n + 1) w =
        genLoop n ⟨w.store, [], w.draws.tail, w.uuids, w.now⟩ := by
      simp only [List.headD_eq_head?_getD] at h0
      rw [genLoop_succ]
      simp [isShortCodeTaken, popFault, hf, h0]
    have htail : ∀ i, i < n →
        isShortCodeTakenIn w.store (generateShortCode ((w.draws.tail).getD i [])) = true := by
      intro i hi
      have hsh : (w.draws.tail).getD i [] = w.draws.getD (i + 1) [] := by
        cases w.draws <;> rfl
      rw [hsh]
      exact ht (i + 1) (Nat.succ_lt_succ hi)
    obtain ⟨w', hrun, hst⟩ := ih ⟨w.store, [], w.draws.tail, w.uuids, w.now⟩ rfl htail
    exact ⟨w', hstep.trans hrun, hst⟩

/-- C4: when the first 10 scheduled random draws all collide with stored
codes, createLink with an absent slug returns the allocation-exhausted
failure; and with no storage faults the bounded loop always returns a
definite discriminated outcome (it cannot run forever). -/
theorem createLink_exhaustion :
    (∀ (uid url : String) (w : World), w.faults = [] → isValidUrl url = true →
      (∀ i, i < 10 →
        isShortCodeTakenIn w.store (generateShortCode (w.draws.getD i [])) = true) →
      ∃ w', createLink (some uid) { url := url, slug := none } w =
        .ok (.failure (.msg exhaustedMsg), w')) ∧
    (∀ (r : Nat) (w : World), w.faults = [] →
      ∃ res w', genLoop r w = .ok (res, w')) := by
  constructor
  · intro uid url w hf hu ht
    obtain ⟨w', hrun, _⟩ := genLoop_exhausts 10 w hf ht
    refine ⟨w', ?_⟩
    simp [createLink, parseCreate, hu, hrun]
  · intro r
    induction r with
    | zero =>
      intro w hf
      exact ⟨none, ⟨w.store, w.faults, w.draws.tail, w.uuids, w.now⟩, rfl⟩
    | succ n ih =>
      intro w hf
      cases hb : isShortCodeTakenIn w.store (generateShortCode (w.draws.headD [])) with
      | false =>
        refine ⟨some (generateShortCode (w.draws.headD [])),
          ⟨w.store, [], w.draws.tail, w.uuids, w.now⟩, ?_⟩
        simp only [List.headD_eq_head?_getD] at hb
        rw [genLoop_succ]
        simp [isShortCodeTaken, popFault, hf, hb]
      | true =>
        obtain ⟨res, w', hrun⟩ := ih ⟨w.store, [], w.draws.tail, w.uuids, w.now⟩ rfl
        refine ⟨res, w', ?_⟩
        simp only [List.headD_eq_head?_getD] at hb
        rw [genLoop_succ]
        simp [isShortCodeTaken, popFault, hf, hb, hrun]

def collideDigits : List (Fin 36) := [10, 11, 12]

def exhaustWorld : World :=
  { store := [aliceLink], faults := [], draws := List.replicate 10 collideDigits,
    uuids := [], now := 0 }

theorem createLink_exhaustion_witness :
    (∃ w', createLink (some "user") { url := "https://example.com/x", slug := none } exhaustWorld =
      .ok (.failure (.msg exhaustedMsg), w')) ∧
    (∃ res w', genLoop 10 demoWorld = .ok (res, w')) :=
  ⟨createLink_exhaustion.1 "user" "https://example.com/x" exhaustWorld rfl
      (by decide) (by decide),
   createLink_exhaustion.2 10 demoWorld rfl⟩

/-- A character of the base-36 alphabet: a decimal digit or a lowercase
letter. -/
def isBase36 (c : Char) : Bool :=
  (decide ('0' ≤ c) && decide (c ≤ '9')) || (decide ('a' ≤ c) && decide (c ≤ 'z'))

lemma digitChar_base36 (d : Fin 36) : isBase36 (digitChar d) = true := by
  revert d
  decide

/-- Every generated code has at most 6 characters, all from the base-36
alphabet. -/
lemma generateShortCode_wf (digits : List (Fin 36)) :
    (generateShortCode digits).length ≤ 6 ∧
    ∀ c ∈ (generateShortCode digits).data, isBase36 c = true := by
  constructor
  · simp [generateShortCode, String.length, List.length_take]
  · intro c hc
    simp only [generateShortCode, List.mem_map] at hc
    rcases hc with ⟨d, hd, rfl⟩
    exact digitChar_base36 d

/-- Any code the generation loop hands to the insert is the image of
some drawn digit expansion under generateShortCode. -/
lemma genLoop_code_shape (r : Nat) : ∀ (w : World) (code : String) (w' : World),
    genLoop r w = .ok (some code, w') →
    ∃ digits, code = generateShortCode digits := by
  induction r with
  | zero =>
    intro w code w' h
    simp [genLoop, popDraw] at h
  | succ n ih =>
    intro w code w' h
    rw [genLoop_succ] at h
    split at h
    · simp at h
    · exact ih _ _ _ h
    · simp only [Except.ok.injEq, Prod.mk.injEq, Option.some.injEq] at h
      exact ⟨w.draws.headD [], h.1.symm⟩

/-- C3 (amended): a successful create with an absent or empty slug
returns a record whose shortCode is a generated code: at most 6
characters, each from the base-36 alphanumeric alphabet.  It can be
shorter than 6 when the drawn expansion has fewer than 6 digits. -/
theorem createLink_generated_shape (uid : String) (input : CreateLinkInput)
    (w : World) (link : Link) (w' : World)
    (hslug : input.slug = none ∨ input.slug = some "")
    (h : createLink (some uid) input w = .ok (.success link, w')) :
    link.shortCode.length ≤ 6 ∧
    ∀ c ∈ link.shortCode.data, isBase36 c = true := by
  simp only [createLink] at h
  split at h
  · simp at h
  · rename_i sx url slug hparse
    have hsn : slug = none := by
      have hempty : slugChars "" = true := by decide
      rcases hslug with h1 | h1 <;>
        (rw [h1] at hparse; unfold parseCreate at hparse; split at hparse <;> simp_all)
    rw [hsn] at h
    split at h
    · split at h
      · simp at h
      · simp at h
      · rename_i code w₁ hloop
        obtain ⟨digits, hcode⟩ := genLoop_code_shape 10 w code w₁ hloop
        have hsc : link.shortCode = code := by
          unfold createInsertPhase at h
          cases hins : insertLink uid url code w₁ with
          | mk rr v =>
            rw [hins] at h
            cases rr with
            | error e => simp at h
            | ok lk =>
              simp only [Except.ok.injEq, CreateLinkResult.success.injEq,
                Prod.mk.injEq] at h
              unfold insertLink popFault popUuid at hins
              split at hins
              · simp at hins
              · split at hins
                · simp at hins
                · simp only [Prod.mk.injEq, Except.ok.injEq] at hins
                  rw [← h.1, ← hins.1]
        rw [hsc, hcode]
        exact generateShortCode_wf digits
    · rename_i sl s hcontra
      simp at hcontra

def halfDrawLink : Link :=
  { id := "u1", userId := "user", shortCode := "i",
    url := "https://example.com/a", createdAt := 0, updatedAt := 0 }

/-- The world of a create whose single Math.random draw is 0.5, whose
base-36 print is 0.i, so the substring keeps the one digit i. -/
def halfDrawWorld : World :=
  { store := [], faults := [], draws := [[18]], uuids := ["u1"], now := 0 }

theorem createLink_sixChars_counterexample :
    createLink (some "user") { url := "https://example.com/a", slug := none } halfDrawWorld =
      .ok (.success halfDrawLink, ⟨[halfDrawLink], [], [], [], 0⟩) ∧
    halfDrawLink.shortCode.length ≠ 6 :=
  ⟨rfl, by decide⟩

theorem createLink_generated_shape_witness :
    halfDrawLink.shortCode.length ≤ 6 ∧
    ∀ c ∈ halfDrawLink.shortCode.data, isBase36 c = true :=
  createLink_generated_shape "user" ⟨"https://example.com/a", none⟩ halfDrawWorld
    halfDrawLink ⟨[halfDrawLink], [], [], [], 0⟩ (Or.inl rfl) rfl

/-- A create against an empty store whose insert is rejected by the
storage uniqueness constraint (a concurrent create won the race after
the pre-check passed). -/
def raceWorld : World :=
  { store := [], faults := [none, some Fault.unique], draws := [],
    uuids := ["u1"], now := 0 }

theorem createLink_race_counterexample :
    createLink (some "user") { url := "https://example.com/a", slug := some "abc" } raceWorld =
      .ok (.failure (.msg createFailedMsg), ⟨[], [], [], ["u1"], 0⟩) ∧
    ActionError.msg createFailedMsg ≠ ActionError.msg slugTakenMsg :=
  ⟨rfl, by decide⟩

/-- C1 (amended): when the pre-check passes but the storage layer
rejects the insert with its uniqueness constraint, the catch converts
the rejection into the generic create-failed outcome, a typed
discriminated failure but not the slug-taken (CodeTakenError)
outcome. -/
theorem createLink_constraint_rejection (uid url code : String) (w : World)
    (hf : w.faults = [none, some Fault.unique])
    (hu : isValidUrl url = true) (hne : code ≠ "") (hlen : code.length ≤ 50)
    (hchars : slugChars code = true)
    (hfree : isShortCodeTakenIn w.store code = false) :
    ∃ w', createLink (some uid) { url := url, slug := some code } w =
      .ok (.failure (.msg createFailedMsg), w') ∧ w'.store = w.store := by
  refine ⟨⟨w.store, [], w.draws, w.uuids, w.now⟩, ?_, rfl⟩
  simp [createLink, parseCreate, isShortCodeTaken, popFault, createInsertPhase,
    insertLink, hf, hu, hne, hlen, hchars, hfree]

theorem createLink_constraint_rejection_witness :
    ∃ w', createLink (some "user") { url := "https://example.com/a", slug := some "abc" } raceWorld =
      .ok (.failure (.msg createFailedMsg), w') ∧ w'.store = raceWorld.store :=
  createLink_constraint_rejection "user" "https://example.com/a" "abc" raceWorld rfl
    (by decide) (by decide) (by decide) (by decide) rfl

/-- A request whose very first storage call raises a driver fault. -/
def readFaultWorld : World :=
  { store := [aliceLink, bobLink], faults := [some Fault.storage], draws := [],
    uuids := [], now := 9 }

/-- A request whose final write raises a driver fault after clean
reads. -/
def writeFaultWorld : World :=
  { store := [aliceLink, bobLink], faults := [none, some Fault.storage],
    draws := [], uuids := [], now := 9 }

theorem createLink_unhandled_fault_counterexample :
    createLink (some "user") { url := "https://example.com/a", slug := some "zzz" } readFaultWorld =
      .error Fault.storage := rfl

/-- A fault scheduled at the check following k collisions propagates
out of the generation loop: the loop's isShortCodeTaken calls are
outside any try/catch. -/
lemma genLoop_fault (k : Nat) : ∀ (r : Nat) (w : World) (f : Fault)
    (rest : List (Option Fault)),
    w.faults = List.replicate k none ++ some f :: rest → k < r →
    (∀ i, i < k →
      isShortCodeTakenIn w.store (generateShortCode (w.draws.getD i [])) = true) →
    genLoop r w = .error f := by
  induction k with
  | zero =>
    intro r w f rest hf hk ht
    cases r with
    | zero => exact (Nat.lt_irrefl 0 hk).elim
    | succ m =>
      rw [genLoop_succ]
      simp [isShortCodeTaken, popFault, hf, List.replicate]
  | succ n ih =>
    intro r w f rest hf hk ht
    cases r with
    | zero => exact (Nat.not_lt_zero _ hk).elim
    | succ m =>
      have hgd : w.draws.getD 0 [] = w.draws.headD [] := by
        cases w.draws <;> rfl
      have h0 : isShortCodeTakenIn w.store (generateShortCode (w.draws.headD [])) = true := by
        have := ht 0 (Nat.succ_pos n)
        rwa [hgd] at this
      simp only [List.headD_eq_head?_getD] at h0
      have hf' : w.faults = none :: (List.replicate n none ++ some f :: rest) := by
        rw [hf, List.replicate_succ]
        rfl
      rw [genLoop_succ]
      simp [isShortCodeTaken, popFault, hf', h0]
      exact ih m ⟨w.store, List.replicate n none ++ some f :: rest,
          w.draws.tail, w.uuids, w.now⟩ f rest rfl (Nat.lt_of_succ_lt_succ hk)
        (fun i hi => by
          have hsh : (w.draws.tail).getD i [] = w.draws.getD (i + 1) [] := by
            cases w.draws <;> rfl
          rw [hsh]
          exact ht (i + 1) (Nat.succ_lt_succ hi))

/-- C2 (amended): a storage fault raised at the final write (insert,
update or delete) is caught and converted into the generic
discriminated failure of the operation, but a fault raised during the
uniqueness pre-check (isShortCodeTaken of the requested path, any of
the generation loop's isShortCodeTaken checks, or the edit path's
isShortCodeTakenExcluding) or during the load-by-id propagates out of
the operation unhandled. -/
theorem fault_propagation :
    (∀ (uid url code : String) (w : World) (f : Fault) (rest : List (Option Fault)),
      w.faults = some f :: rest → isValidUrl url = true → code ≠ "" →
      code.length ≤ 50 → slugChars code = true →
      createLink (some uid) { url := url, slug := some code } w = .error f) ∧
    (∀ (uid url : String) (w : World) (k : Nat) (f : Fault) (rest : List (Option Fault)),
      w.faults = List.replicate k none ++ some f :: rest → k < 10 →
      isValidUrl url = true →
      (∀ i, i < k →
        isShortCodeTakenIn w.store (generateShortCode (w.draws.getD i [])) = true) →
      createLink (some uid) { url := url, slug := none } w = .error f) ∧
    (∀ (uid url code : String) (w : World) (f : Fault),
      w.faults = [none, some f] → isValidUrl url = true → code ≠ "" →
      code.length ≤ 50 → slugChars code = true →
      isShortCodeTakenIn w.store code = false →
      ∃ w', createLink (some uid) { url := url, slug := some code } w =
        .ok (.failure (.msg createFailedMsg), w') ∧ w'.store = w.store) ∧
    (∀ (uid : String) (input : EditLinkInput) (w : World) (f : Fault)
      (rest : List (Option Fault)),
      w.faults = some f :: rest → isValidUrl input.url = true →
      1 ≤ input.slug.length → input.slug.length ≤ 50 → slugChars input.slug = true →
      editLink (some uid) input w = .error f) ∧
    (∀ (uid : String) (input : EditLinkInput) (w : World) (existing : Link) (f : Fault)
      (rest : List (Option Fault)),
      w.faults = none :: some f :: rest → isValidUrl input.url = true →
      1 ≤ input.slug.length → input.slug.length ≤ 50 → slugChars input.slug = true →
      (w.store.find? fun l => l.id == input.id) = some existing →
      existing.userId = uid → input.slug ≠ existing.shortCode →
      editLink (some uid) input w = .error f) ∧
    (∀ (uid : String) (input : EditLinkInput) (w : World) (existing : Link) (f : Fault),
      w.faults = [none, some f] → isValidUrl input.url = true →
      1 ≤ input.slug.length → input.slug.length ≤ 50 → slugChars input.slug = true →
      (w.store.find? fun l => l.id == input.id) = some existing →
      existing.userId = uid → input.slug = existing.shortCode →
      ∃ w', editLink (some uid) input w =
        .ok (.failure (.msg updateFailedMsg), w') ∧ w'.store = w.store) ∧
    (∀ (uid : String) (input : EditLinkInput) (w : World) (existing : Link) (f : Fault),
      w.faults = [none, none, some f] → isValidUrl input.url = true →
      1 ≤ input.slug.length → input.slug.length ≤ 50 → slugChars input.slug = true →
      (w.store.find? fun l => l.id == input.id) = some existing →
      existing.userId = uid → input.slug ≠ existing.shortCode →
      (¬ ∃ x ∈ w.store, x.shortCode = input.slug ∧ ¬ x.id = input.id) →
      ∃ w', editLink (some uid) input w =
        .ok (.failure (.msg updateFailedMsg), w') ∧ w'.store = w.store) ∧
    (∀ (uid : String) (input : DeleteLinkInput) (w : World) (f : Fault)
      (rest : List (Option Fault)),
      w.faults = some f :: rest →
      deleteLink (some uid) input w = .error f) ∧
    (∀ (uid : String) (input : DeleteLinkInput) (w : World) (existing : Link) (f : Fault),
      w.faults = [none, some f] →
      (w.store.find? fun l => l.id == input.id) = some existing →
      existing.userId = uid →
      ∃ w', deleteLink (some uid) input w =
        .ok (.failure deleteFailedMsg, w') ∧ w'.store = w.store) := by
  refine ⟨?_, ?_, ?_, ?_, ?_, ?_, ?_, ?_, ?_⟩
  · intro uid url code w f rest hf hu hne hlen hchars
    simp [createLink, parseCreate, isShortCodeTaken, popFault,
      hf, hu, hne, hlen, hchars]
  · intro uid url w k f rest hf hk hu ht
    have hloop : genLoop 10 w = .error f := genLoop_fault k 10 w f rest hf hk ht
    simp [createLink, parseCreate, hu, hloop]
  · intro uid url code w f hf hu hne hlen hchars hfree
    refine ⟨⟨w.store, [], w.draws, w.uuids, w.now⟩, ?_, rfl⟩
    simp [createLink, parseCreate, isShortCodeTaken, popFault, createInsertPhase,
      insertLink, hf, hu, hne, hlen, hchars, hfree]
  · intro uid input w f rest hf hu h1 h50 hchars
    have hlen0 : ¬ input.slug.length = 0 := by omega
    simp [editLink, parseEdit, getLinkById, popFault,
      hf, hu, h1, h50, hchars, hlen0]
  · intro uid input w existing f rest hf hu h1 h50 hchars hfind hown hne
    have hlen0 : ¬ input.slug.length = 0 := by omega
    simp [editLink, parseEdit, getLinkById, isShortCodeTakenExcluding, popFault,
      hf, hu, h1, h50, hchars, hlen0, hfind, hown, hne]
  · intro uid input w existing f hf hu h1 h50 hchars hfind hown heq
    rw [heq] at h1 h50 hchars
    have hlen0 : ¬ existing.shortCode.length = 0 := by omega
    refine ⟨⟨w.store, [], w.draws, w.uuids, w.now⟩, ?_, rfl⟩
    simp [editLink, parseEdit, getLinkById, updatePhase, updateLinkById, popFault,
      hf, hu, h1, h50, hchars, hlen0, hfind, hown, heq]
  · intro uid input w existing f hf hu h1 h50 hchars hfind hown hne hnone
    have hlen0 : ¬ input.slug.length = 0 := by omega
    have hany : (w.store.any fun l => l.shortCode == input.slug && !(l.id == input.id)) = false := by
      by_contra hab
      rw [Bool.not_eq_false, List.any_eq_true] at hab
      rcases hab with ⟨x, hx, hpx⟩
      simp only [Bool.and_eq_true, beq_iff_eq, Bool.not_eq_true',
        beq_eq_false_iff_ne] at hpx
      exact hnone ⟨x, hx, hpx.1, hpx.2⟩
    refine ⟨⟨w.store, [], w.draws, w.uuids, w.now⟩, ?_, rfl⟩
    simp [editLink, parseEdit, getLinkById, isShortCodeTakenExcluding, updatePhase,
      updateLinkById, popFault, hf, hu, h1, h50, hchars, hlen0, hfind, hown, hne,
      hnone, hany]
  · intro uid input w f rest hf
    simp [deleteLink, getLinkById, popFault, hf]
  · intro uid input w existing f hf hfind hown
    refine ⟨⟨w.store, [], w.draws, w.uuids, w.now⟩, ?_, rfl⟩
    simp [deleteLink, getLinkById, deleteLinkById, popFault, hf, hfind, hown]

/-- A generation-path create whose first draw collides and whose second
uniqueness check, inside the loop, raises a driver fault. -/
def loopFaultWorld : World :=
  { store := [aliceLink], faults := [none, some Fault.storage],
    draws := List.replicate 2 collideDigits, uuids := [], now := 0 }

/-- An edit whose load and excluding check succeed and whose update
write raises a driver fault. -/
def editWriteFaultWorld : World :=
  { store := [aliceLink, bobLink], faults := [none, none, some Fault.storage],
    draws := [], uuids := [], now := 9 }

theorem fault_propagation_witness :
    createLink (some "user") { url := "https://example.com/a", slug := some "zzz" } readFaultWorld =
      .error Fault.storage ∧
    createLink (some "user") { url := "https://example.com/a", slug := none } loopFaultWorld =
      .error Fault.storage ∧
    (∃ w', createLink (some "user") { url := "https://example.com/a", slug := some "zzz" } writeFaultWorld =
      .ok (.failure (.msg createFailedMsg), w') ∧ w'.store = writeFaultWorld.store) ∧
    editLink (some "alice") { id := "id1", url := "https://example.com/n", slug := "abc" } readFaultWorld =
      .error Fault.storage ∧
    editLink (some "alice") { id := "id1", url := "https://example.com/n", slug := "fresh" } writeFaultWorld =
      .error Fault.storage ∧
    (∃ w', editLink (some "alice") { id := "id1", url := "https://example.com/n", slug := "abc" } writeFaultWorld =
      .ok (.failure (.msg updateFailedMsg), w') ∧ w'.store = writeFaultWorld.store) ∧
    (∃ w', editLink (some "alice") { id := "id1", url := "https://example.com/n", slug := "fresh" } editWriteFaultWorld =
      .ok (.failure (.msg updateFailedMsg), w') ∧ w'.store = editWriteFaultWorld.store) ∧
    deleteLink (some "alice") { id := "id1" } readFaultWorld = .error Fault.storage ∧
    (∃ w', deleteLink (some "alice") { id := "id1" } writeFaultWorld =
      .ok (.failure deleteFailedMsg, w') ∧ w'.store = writeFaultWorld.store) :=
  ⟨fault_propagation.1 "user" "https://example.com/a" "zzz" readFaultWorld
      Fault.storage [] rfl (by decide) (by decide) (by decide) (by decide),
   fault_propagation.2.1 "user" "https://example.com/a" loopFaultWorld 1
      Fault.storage [] rfl (by decide) (by decide) (by decide),
   fault_propagation.2.2.1 "user" "https://example.com/a" "zzz" writeFaultWorld
      Fault.storage rfl (by decide) (by decide) (by decide) (by decide) (by decide),
   fault_propagation.2.2.2.1 "alice" ⟨"id1", "https://example.com/n", "abc"⟩ readFaultWorld
      Fault.storage [] rfl (by decide) (by decide) (by decide) (by decide),
   fault_propagation.2.2.2.2.1 "alice" ⟨"id1", "https://example.com/n", "fresh"⟩ writeFaultWorld
      aliceLink Fault.storage [] rfl (by decide) (by decide) (by decide) (by decide)
      (by decide) rfl (by decide),
   fault_propagation.2.2.2.2.2.1 "alice" ⟨"id1", "https://example.com/n", "abc"⟩ writeFaultWorld
      aliceLink Fault.storage rfl (by decide) (by decide) (by decide) (by decide)
      (by decide) rfl rfl,
   fault_propagation.2.2.2.2.2.2.1 "alice" ⟨"id1", "https://example.com/n", "fresh"⟩
      editWriteFaultWorld aliceLink Fault.storage rfl (by decide) (by decide) (by decide)
      (by decide) (by decide) rfl (by decide) (by decide),
   fault_propagation.2.2.2.2.2.2.2.1 "alice" ⟨"id1"⟩ readFaultWorld Fault.storage [] rfl,
   fault_propagation.2.2.2.2.2.2.2.2 "alice" ⟨"id1"⟩ writeFaultWorld aliceLink Fault.storage
      rfl (by decide) rfl⟩
